import Mathlib

/-!
Verification development for the terminal arcade shooter in
`src/starwars_game/main.py` (`Tzur01/StarWars`).

The Python program is shallowly embedded as follows.

* Python `float` sub-cell coordinates, speeds and timestamps are embedded as
  exact rationals `ℚ`; integer cell coordinates as `ℤ`.
* Because the `Rat` arithmetic operations of the ambient library are marked
  irreducible (so concrete states could not be evaluated inside proofs by
  `decide`), the embedding performs rational arithmetic through the
  kernel-computable wrappers `qadd`, `qsub`, `qmul`, `qabs` defined below.
  Each wrapper is proved equal to the corresponding standard operation
  (`qadd_eq` etc.), so statements and proofs freely move between the two.
* Python `int(x)` applied to a float truncates toward zero; this is `pyInt`.
* `random.randint` / `random.random` draws are threaded explicitly through a
  `Rng` oracle: a list of integer draws (reduced into the requested interval)
  and a list of rational draws.  Every theorem quantifies over the oracle.
* Python objects have identity; lists hold references and `list.remove` /
  `in` work by identity for these game objects.  Enemies carry an `eid` and
  projectiles a `pid` embedding that identity; power-ups are only ever
  removed in the iteration that visits them, where value equality and
  identity coincide, so they carry no tag.
* The difficulty function `get_difficulty_multiplier` uses `math.log`, so it
  is embedded over `ℝ` (necessarily noncomputable); the game-state functions
  that consume the resulting multiplier take it as an explicit rational
  parameter `difficulty`.
* `curses.LINES` (screen height used by `Player.shoot`) and the screen
  geometry `width`/`height` are explicit parameters / state fields.
-/

/-- Kernel-computable addition on `ℚ` (see the module comment). -/
def qadd (a b : ℚ) : ℚ := mkRat (a.num * b.den + b.num * a.den) (a.den * b.den)

/-- Kernel-computable subtraction on `ℚ`. -/
def qsub (a b : ℚ) : ℚ := mkRat (a.num * b.den - b.num * a.den) (a.den * b.den)

/-- Kernel-computable multiplication on `ℚ`. -/
def qmul (a b : ℚ) : ℚ := mkRat (a.num * b.num) (a.den * b.den)

/-- Kernel-computable absolute value on `ℚ`, for Python `abs`. -/
def qabs (q : ℚ) : ℚ := if q < 0 then -q else q

/-- Python `int()` applied to a float: truncation toward zero. -/
def pyInt (q : ℚ) : ℤ := if q < 0 then -(-q).floor else q.floor

/-- Oracle for the `random` module: a stream of integer draws and a stream of
rational draws, consumed in program order. -/
structure Rng where
  ints : List ℕ
  floats : List ℚ
deriving DecidableEq

/-- Model of `random.randint(lo, hi)`: the next integer draw, reduced into
`[lo, hi]`. -/
def Rng.randint (r : Rng) (lo hi : ℤ) : ℤ × Rng :=
  match r.ints with
  | [] => (lo, r)
  | n :: rest => (lo + (n : ℤ) % (hi - lo + 1), { r with ints := rest })

/-- Model of `random.random()`: the next rational draw. -/
def Rng.random (r : Rng) : ℚ × Rng :=
  match r.floats with
  | [] => (0, r)
  | q :: rest => (q, { r with floats := rest })

/-- Class `GameObject` (main.py lines 9-19): integer cell position, the
higher-precision sub-cell position, glyph, facing and size. -/
structure GameObject where
  x : ℤ
  y : ℤ
  float_x : ℚ
  float_y : ℚ
  char : String
  direction : ℤ
  width : ℕ
  height : ℕ
deriving DecidableEq

namespace GameObject

/-- `GameObject.__init__`: `x = int(x)`, `float_x = float(x)`,
`width = len(char)`, `height = 1`. -/
def init (x y : ℚ) (char : String) (direction : ℤ) : GameObject :=
  { x := pyInt x, y := pyInt y, float_x := x, float_y := y,
    char := char, direction := direction, width := char.length, height := 1 }

/-- `GameObject.move` (lines 21-27): add `(dx, dy)` to the floating-point
position, then set the integer position with `int(...)`. -/
def move (o : GameObject) (dx dy : ℚ) : GameObject :=
  let fx := qadd o.float_x dx
  let fy := qadd o.float_y dy
  { o with float_x := fx, float_y := fy, x := pyInt fx, y := pyInt fy }

/-- `GameObject.get_position` (lines 29-31). -/
def get_position (o : GameObject) : ℤ × ℤ := (o.x, o.y)

/-- `GameObject.collides_with` (lines 33-43): horizontal spans inflated by
`margin` overlap and the rows differ by at most `margin`. -/
def collides_with (a b : GameObject) (margin : ℕ) : Bool :=
  (decide (a.x < b.x + (b.width : ℤ) + (margin : ℤ)) &&
   decide (b.x < a.x + (a.width : ℤ) + (margin : ℤ))) &&
  decide ((a.y - b.y).natAbs ≤ margin)

end GameObject

/-- Class `Projectile` (lines 45-63). The `pid` embeds Python object
identity. -/
structure Projectile where
  obj : GameObject
  speed : ℚ
  is_rapid : Bool
  pid : ℕ
deriving DecidableEq

namespace Projectile

/-- `Projectile.__init__` (lines 46-60): rapid projectiles use the arrow
glyph and 1.5x speed (the `try` around `str(char)` always succeeds). -/
def init (x y : ℚ) (direction : ℤ) (is_rapid : Bool) (pid : ℕ) : Projectile :=
  let char := if is_rapid then (if direction > 0 then "⇒" else "⇐")
              else (if direction > 0 then "->" else "<")
  { obj := GameObject.init x y char direction,
    speed := qmul (if is_rapid then mkRat 3 2 else 1) (direction : ℚ),
    is_rapid := is_rapid, pid := pid }

/-- `Projectile.update` (lines 62-63). -/
def update (p : Projectile) : Projectile :=
  { p with obj := p.obj.move p.speed 0 }

end Projectile

/-- Glyph table of `PowerUp.__init__` (lines 67-73, with the `.get` default
`"P"`); the `try` branch always succeeds so the fallback table is dead. -/
def powerUpChar (t : ℕ) : String :=
  if t = 0 then "⊕" else if t = 1 then "↯" else if t = 2 then "★"
  else if t = 3 then "♥" else "P"

/-- Class `PowerUp` (lines 65-98). -/
structure PowerUp where
  obj : GameObject
  type_id : ℕ
  speed : ℚ
  pulse_counter : ℕ
deriving DecidableEq

namespace PowerUp

/-- `PowerUp.__init__` (lines 66-95): drift speed `-1`. -/
def init (x y : ℚ) (type_id : ℕ) : PowerUp :=
  { obj := GameObject.init x y (powerUpChar type_id) 1,
    type_id := type_id, speed := -1, pulse_counter := 0 }

/-- `PowerUp.update` (lines 97-98). -/
def update (p : PowerUp) : PowerUp :=
  { p with obj := p.obj.move p.speed 0 }

end PowerUp

/-- The three enemy kinds of class `EnemyType` (lines 207-211). -/
inductive EnemyType where
  | BASIC
  | ZIGZAG
  | HUNTER
deriving DecidableEq

namespace EnemyType

/-- `EnemyType.get_appearance` (lines 213-220). -/
def get_appearance : EnemyType → String
  | BASIC => "<<=+=>>"
  | ZIGZAG => "-=+::+=-"
  | HUNTER => "<+==+<"

/-- `EnemyType.get_base_speed` (lines 222-230). -/
def get_base_speed : EnemyType → ℚ
  | BASIC => 1
  | ZIGZAG => mkRat 12 10
  | HUNTER => mkRat 9 10

/-- `EnemyType.get_max_speed` (lines 232-240). -/
def get_max_speed : EnemyType → ℚ
  | BASIC => 3
  | ZIGZAG => mkRat 35 10
  | HUNTER => mkRat 32 10

/-- `EnemyType.get_points` (lines 242-249). -/
def get_points : EnemyType → ℕ
  | BASIC => 10
  | ZIGZAG => 15
  | HUNTER => 20

end EnemyType

/-- Class `Enemy` (lines 251-330). The `eid` embeds Python object
identity. -/
structure Enemy where
  obj : GameObject
  enemy_type : EnemyType
  base_speed : ℚ
  speed : ℚ
  difficulty_multiplier : ℚ
  zigzag_counter : ℤ
  zigzag_interval : ℤ
  zigzag_direction : ℤ
  zigzag_accumulator : ℚ
  hunt_interval : ℤ
  hunt_counter : ℤ
  target_y : Option ℤ
  hunter_accumulator : ℚ
  eid : ℕ
deriving DecidableEq

namespace Enemy

/-- `Enemy.__init__` (lines 252-278): speed interpolated between the type
base and max by the difficulty multiplier frozen at spawn; facing `-1`. -/
def init (x y : ℚ) (enemy_type : EnemyType) (difficulty_multiplier : ℚ)
    (eid : ℕ) : Enemy :=
  let base_speed := qadd (EnemyType.get_base_speed enemy_type)
    (qmul (qsub (EnemyType.get_max_speed enemy_type)
      (EnemyType.get_base_speed enemy_type)) difficulty_multiplier)
  { obj := GameObject.init x y (EnemyType.get_appearance enemy_type) (-1),
    enemy_type := enemy_type,
    base_speed := base_speed,
    speed := qmul base_speed ((-1 : ℤ) : ℚ),
    difficulty_multiplier := difficulty_multiplier,
    zigzag_counter := 0, zigzag_interval := 5, zigzag_direction := 1,
    zigzag_accumulator := 0,
    hunt_interval := 10, hunt_counter := 0, target_y := none,
    hunter_accumulator := 0, eid := eid }

/-- `Enemy.update` (lines 280-330): base horizontal movement, then the
zigzag counter/accumulator logic or the hunter targeting logic. -/
def update (e : Enemy) (player_position : ℤ × ℤ) (r : Rng) : Enemy × Rng :=
  let e := { e with obj := e.obj.move e.speed 0 }
  match e.enemy_type with
  | EnemyType.ZIGZAG =>
    let zc := e.zigzag_counter + 1
    let (e, r) :=
      if zc ≥ e.zigzag_interval then
        let min_interval := max (5 - pyInt (qmul 3 e.difficulty_multiplier)) 2
        let max_interval := max (10 - pyInt (qmul 5 e.difficulty_multiplier)) 5
        let (iv, r') := r.randint min_interval max_interval
        ({ e with zigzag_counter := 0,
                  zigzag_direction := -e.zigzag_direction,
                  zigzag_interval := iv }, r')
      else ({ e with zigzag_counter := zc }, r)
    let zigzag_speed := qadd (mkRat 5 10) (qmul (qsub 2 (mkRat 5 10))
      e.difficulty_multiplier)
    let zacc := qadd e.zigzag_accumulator
      (qmul zigzag_speed (e.zigzag_direction : ℚ))
    ({ e with zigzag_accumulator := zacc }, r)
  | EnemyType.HUNTER =>
    let player_y := player_position.2
    let hc := e.hunt_counter + 1
    let (e, r) :=
      if hc ≥ e.hunt_interval ∨ e.target_y = none then
        let (iv, r') := r.randint 3 5
        ({ e with hunt_counter := 0, hunt_interval := iv,
                  target_y := some player_y }, r')
      else ({ e with hunt_counter := hc }, r)
    match e.target_y with
    | some ty =>
      let current_y := e.obj.float_y
      if qabs (qsub current_y ((ty : ℤ) : ℚ)) > mkRat 2 10 then
        let tracking_speed := qadd (mkRat 8 10)
          (qmul (qsub (mkRat 25 10) (mkRat 8 10)) e.difficulty_multiplier)
        let dy := if current_y < ((ty : ℤ) : ℚ) then tracking_speed
                  else -tracking_speed
        let acc := qadd e.hunter_accumulator dy
        let move_amount := pyInt acc
        if move_amount ≠ 0 then
          ({ e with obj := e.obj.move 0 (move_amount : ℚ),
                    hunter_accumulator := qsub acc (move_amount : ℚ) }, r)
        else ({ e with hunter_accumulator := acc }, r)
      else (e, r)
    | none => (e, r)
  | EnemyType.BASIC => (e, r)

end Enemy

/-- Ship glyph table `Player.SHIP_LEVELS` (lines 102-107). -/
def SHIP_LEVELS : ℕ → String
  | 0 => "\x7b-+==+-\x7d"
  | 1 => "<-=:::=->"
  | 2 => "\x7b+-=^=-+\x7d>"
  | 3 => ">[=X=]>"
  | _ => ""

/-- Class `Player` (lines 100-205). `next_pid` is the identity counter for
newly created projectiles. -/
structure Player where
  obj : GameObject
  level : ℕ
  speed : ℚ
  score : ℤ
  lives : ℕ
  projectiles : List Projectile
  last_shot_time : ℚ
  has_shield : Bool
  rapid_fire : Bool
  invincible : Bool
  shield_active_until : ℚ
  rapid_fire_until : ℚ
  invincible_until : ℚ
  power_up_duration : ℚ
  normal_cooldown : ℚ
  rapid_cooldown : ℚ
  upgrade_message : String
  upgrade_time : ℚ
  upgrade_display_duration : ℚ
  next_pid : ℕ
deriving DecidableEq

namespace Player

/-- `Player.__init__` (lines 109-141). -/
def init (x y : ℚ) : Player :=
  { obj := GameObject.init x y (SHIP_LEVELS 0) 1,
    level := 0, speed := 1, score := 0, lives := 1,
    projectiles := [], last_shot_time := 0,
    has_shield := false, rapid_fire := false, invincible := false,
    shield_active_until := 0, rapid_fire_until := 0, invincible_until := 0,
    power_up_duration := 4,
    normal_cooldown := mkRat 3 10, rapid_cooldown := mkRat 1 10,
    upgrade_message := "", upgrade_time := 0,
    upgrade_display_duration := 3, next_pid := 0 }

/-- `Player.shoot` (lines 143-166): gated by the cooldown; always one
forward projectile, and for level >= 2 an extra one a row above (if `y > 1`)
and one a row below (if `y < curses.LINES - 2`, `lines` here). -/
def shoot (p : Player) (current_time : ℚ) (lines : ℕ) : Player × Bool :=
  let cooldown := if p.rapid_fire then p.rapid_cooldown else p.normal_cooldown
  if qsub current_time p.last_shot_time > cooldown then
    let x := p.obj.x
    let y := p.obj.y
    let projectile := Projectile.init ((x + (p.obj.width : ℤ) : ℤ) : ℚ)
      ((y : ℤ) : ℚ) 1 p.rapid_fire p.next_pid
    let projs := p.projectiles ++ [projectile]
    let npid := p.next_pid + 1
    let (projs, npid) :=
      if p.level ≥ 2 then
        let (projs, npid) :=
          if y > 1 then
            (projs ++ [Projectile.init ((x + (p.obj.width : ℤ) : ℤ) : ℚ)
              ((y - 1 : ℤ) : ℚ) 1 p.rapid_fire npid], npid + 1)
          else (projs, npid)
        if y < (lines : ℤ) - 2 then
          (projs ++ [Projectile.init ((x + (p.obj.width : ℤ) : ℤ) : ℚ)
            ((y + 1 : ℤ) : ℚ) 1 p.rapid_fire npid], npid + 1)
        else (projs, npid)
      else (projs, npid)
    ({ p with projectiles := projs, last_shot_time := current_time,
              next_pid := npid }, true)
  else (p, false)

/-- `Player.update_projectiles` (lines 168-175): move every projectile, then
drop the ones with `x < 0` or `x > max_x`. -/
def update_projectiles (p : Player) (max_x : ℕ) : Player :=
  let moved := p.projectiles.map Projectile.update
  let kept := moved.filter
    (fun pr => !(decide (pr.obj.x < 0) || decide (pr.obj.x > (max_x : ℤ))))
  { p with projectiles := kept }

/-- `Player.update_power_ups` (lines 177-184): clear each expired flag. -/
def update_power_ups (p : Player) (current_time : ℚ) : Player :=
  let p := if current_time > p.shield_active_until
           then { p with has_shield := false } else p
  let p := if current_time > p.rapid_fire_until
           then { p with rapid_fire := false } else p
  if current_time > p.invincible_until
  then { p with invincible := false } else p

/-- `Player.check_upgrade` (lines 186-205): threshold-gated one-way level
transitions; on an increase the glyph, width and a timed banner update. -/
def check_upgrade (p : Player) (current_time : ℚ) : Player × Bool :=
  let old_level := p.level
  let p :=
    if p.score ≥ 300 ∧ p.level < 3 then { p with level := 3 }
    else if p.score ≥ 200 ∧ p.level < 2 then { p with level := 2 }
    else if p.score ≥ 100 ∧ p.level < 1 then { p with level := 1 }
    else p
  if old_level < p.level then
    let newChar := SHIP_LEVELS p.level
    let newObj := { p.obj with char := newChar, width := newChar.length }
    let msg := "SHIP UPGRADED! LEVEL " ++ toString (p.level + 1)
    ({ p with obj := newObj, upgrade_message := msg,
              upgrade_time := current_time }, true)
  else (p, false)

end Player

/-- The mutable state of class `StarWarsGame` that the embedded operations
touch (lines 331-445): player, live collections, the game-over flag, screen
geometry, the enemy-type score thresholds, the identity counter for spawned
enemies, and the random oracle. -/
structure GState where
  player : Player
  enemies : List Enemy
  power_ups : List PowerUp
  game_over : Bool
  width : ℕ
  height : ℕ
  zigzag_enemy_score_threshold : ℚ
  hunter_enemy_score_threshold : ℚ
  next_eid : ℕ
  rng : Rng
deriving DecidableEq

/-- Remove the first enemy with the given identity (Python
`self.enemies.remove(enemy)`). -/
def eraseById : List Enemy → ℕ → List Enemy
  | [], _ => []
  | e :: es, i => if e.eid = i then es else e :: eraseById es i

/-- Replace the (unique) enemy with the given identity by its mutated value
(Python mutates the object in place, so the live list sees the update). -/
def setById : List Enemy → ℕ → Enemy → List Enemy
  | [], _, _ => []
  | e :: es, i, e' => if e.eid = i then e' :: es else e :: setById es i e'

/-- Python `enemy in self.enemies` (identity membership). -/
def containsId (l : List Enemy) (i : ℕ) : Bool := l.any (fun e => e.eid == i)

/-- `StarWarsGame.spawn_enemy` (lines 447-479).  The source computes the
difficulty multiplier by calling `get_difficulty_multiplier(time.time())`;
here that value is the explicit `difficulty` parameter (see the module
comment).  Only acts when fewer than 15 enemies are live. -/
def spawn_enemy (s : GState) (difficulty : ℚ) : GState :=
  if s.enemies.length < 15 then
    let x : ℤ := (s.width : ℤ) - 10
    let (y, r1) := s.rng.randint 2 ((s.height : ℤ) - 3)
    let hunter_chance_threshold :=
      qmul s.hunter_enemy_score_threshold (qsub 1 (qmul difficulty (mkRat 3 10)))
    let (enemy_type, r2) :=
      if ((s.player.score : ℤ) : ℚ) ≥ hunter_chance_threshold then
        let (rv, r') := r1.random
        if rv < qadd (mkRat 1 10) (qmul difficulty (mkRat 3 10))
        then (EnemyType.HUNTER, r') else (EnemyType.BASIC, r')
      else (EnemyType.BASIC, r1)
    let zigzag_chance_threshold :=
      qmul s.zigzag_enemy_score_threshold (qsub 1 (qmul difficulty (mkRat 3 10)))
    let (enemy_type, r3) :=
      if enemy_type = EnemyType.BASIC ∧
         ((s.player.score : ℤ) : ℚ) ≥ zigzag_chance_threshold then
        let (rv, r') := r2.random
        if rv < qadd (mkRat 2 10) (qmul difficulty (mkRat 4 10))
        then (EnemyType.ZIGZAG, r') else (enemy_type, r')
      else (enemy_type, r2)
    let newEnemy := Enemy.init (x : ℚ) (y : ℚ) enemy_type difficulty s.next_eid
    { s with enemies := s.enemies ++ [newEnemy],
             next_eid := s.next_eid + 1, rng := r3 }
  else s

/-- `StarWarsGame.spawn_power_up` (lines 481-495): only acts when fewer than
2 power-ups are live; the `try` always succeeds. -/
def spawn_power_up (s : GState) : GState :=
  if s.power_ups.length < 2 then
    let x : ℤ := (s.width : ℤ) - 5
    let (y, r1) := s.rng.randint 2 ((s.height : ℤ) - 3)
    let (power_up_type, r2) := r1.randint 0 2
    let new_power_up := PowerUp.init (x : ℚ) (y : ℚ) power_up_type.toNat
    { s with power_ups := s.power_ups ++ [new_power_up], rng := r2 }
  else s

/-- Bounds clamp at the end of `StarWarsGame.handle_input` (lines 523-533):
rewrites only the integer coordinates, never the sub-cell coordinates. -/
def clampPlayer (p : Player) (width height : ℕ) : Player :=
  let p :=
    if p.obj.x < 0 then { p with obj := { p.obj with x := 0 } }
    else if p.obj.x + (p.obj.width : ℤ) ≥ (width : ℤ) then
      { p with obj := { p.obj with x := (width : ℤ) - (p.obj.width : ℤ) - 1 } }
    else p
  if p.obj.y < 0 then { p with obj := { p.obj with y := 0 } }
  else if p.obj.y + (p.obj.height : ℤ) ≥ (height : ℤ) then
    { p with obj := { p.obj with y := (height : ℤ) - (p.obj.height : ℤ) - 1 } }
  else p

/-- Power-up section of `StarWarsGame.update` (lines 569-627), iterating
over a snapshot of the live list: move the power-up, cull it off-screen, or
on a margin-3 collision with the player apply its effect, set the feedback
banner, remove it and award +5 score. -/
def powerUpGo (now : ℚ) : GState → List PowerUp → GState
  | s, [] => s
  | s, pu :: rest =>
    let pu' : PowerUp := pu.update
    let s1 : GState := { s with power_ups := s.power_ups.replace pu pu' }
    if pu'.obj.x < 0 ∨ pu'.obj.x > (s1.width : ℤ) ∨
       pu'.obj.y < 0 ∨ pu'.obj.y > (s1.height : ℤ) then
      powerUpGo now { s1 with power_ups := s1.power_ups.erase pu' } rest
    else if pu'.obj.collides_with s1.player.obj 3 then
      let pl := s1.player
      let pl :=
        if pu'.type_id = 0 then
          { pl with has_shield := true,
                    shield_active_until := qadd now pl.power_up_duration,
                    upgrade_message := "SHIELD ACTIVATED!",
                    upgrade_time := now }
        else if pu'.type_id = 1 then
          { pl with rapid_fire := true,
                    rapid_fire_until := qadd now pl.power_up_duration,
                    upgrade_message := "RAPID FIRE ACTIVATED!",
                    upgrade_time := now }
        else if pu'.type_id = 2 then
          { pl with invincible := true,
                    invincible_until := qadd now pl.power_up_duration,
                    upgrade_message := "INVINCIBILITY ACTIVATED!",
                    upgrade_time := now }
        else { pl with upgrade_message := "POWER-UP COLLECTED!",
                       upgrade_time := now }
      powerUpGo now { s1 with
        player := { pl with score := pl.score + 5 },
        power_ups := s1.power_ups.erase pu' } rest
    else powerUpGo now s1 rest

/-- Power-up pass of `StarWarsGame.update`, started on the snapshot
`self.power_ups[:]`. -/
def powerUpPass (now : ℚ) (s : GState) : GState := powerUpGo now s s.power_ups

/-- Projectile loop of the enemy section of `StarWarsGame.update`
(lines 682-708): scan the snapshot of the player's projectiles in order; the
first one colliding with the enemy removes the enemy (if still live — if it
was already removed the scan continues) and itself, awards the enemy's
type-specific points, and stops the scan. -/
def projGo (s : GState) (e : Enemy) : List Projectile → GState
  | [] => s
  | pr :: rest =>
    if e.obj.collides_with pr.obj 0 then
      if containsId s.enemies e.eid then
        { s with enemies := eraseById s.enemies e.eid,
                 player := { s.player with
                   projectiles := s.player.projectiles.erase pr,
                   score := s.player.score +
                     (EnemyType.get_points e.enemy_type : ℤ) } }
      else projGo s e rest
    else projGo s e rest

/-- Projectile scan started on the snapshot `self.player.projectiles[:]`. -/
def projScan (s : GState) (e : Enemy) : GState := projGo s e s.player.projectiles

/-- Body of the enemy loop of `StarWarsGame.update` (lines 630-708) for one
snapshot element: update the enemy (mutating it in the live list), cull it
off-screen, resolve a player collision (invincible: destroy; shield: consume
shield and destroy; unprotected: set game-over and return from `update`
immediately, the `Sum.inr` case), then scan the projectiles.  `Sum.inl`
continues with the next snapshot element. -/
def enemyStep (now : ℚ) (s : GState) (e : Enemy) : GState ⊕ GState :=
  let ur := e.update s.player.obj.get_position s.rng
  let e' := ur.1
  let s1 : GState := { s with enemies := setById s.enemies e.eid e',
                              rng := ur.2 }
  if e'.obj.x + (e'.obj.width : ℤ) < 0 ∨ e'.obj.x > (s1.width : ℤ) ∨
     e'.obj.y < 0 ∨ e'.obj.y > (s1.height : ℤ) then
    Sum.inl { s1 with enemies := eraseById s1.enemies e.eid }
  else if e'.obj.collides_with s1.player.obj 0 then
    if s1.player.invincible then
      Sum.inl (projScan { s1 with enemies := eraseById s1.enemies e.eid } e')
    else if s1.player.has_shield then
      let pl := { s1.player with has_shield := false,
                                 upgrade_message := "SHIELD DEACTIVATED!",
                                 upgrade_time := now }
      Sum.inl (projScan { s1 with player := pl,
                                  enemies := eraseById s1.enemies e.eid } e')
    else Sum.inr { s1 with game_over := true }
  else Sum.inl (projScan s1 e')

/-- Enemy loop of `StarWarsGame.update` over a snapshot list: a `Sum.inr`
result of `enemyStep` (unprotected player hit) returns from the whole pass
immediately, processing nothing further. -/
def enemyGo (now : ℚ) : GState → List Enemy → GState
  | s, [] => s
  | s, e :: rest =>
    match enemyStep now s e with
    | Sum.inl s' => enemyGo now s' rest
    | Sum.inr s' => s'

/-- Enemy pass of `StarWarsGame.update`, started on the snapshot
`self.enemies[:]`. -/
def enemyPass (now : ℚ) (s : GState) : GState := enemyGo now s s.enemies

/-- Time factor of `StarWarsGame.get_difficulty_multiplier` (lines 345-351),
over `ℝ`. -/
noncomputable def time_factor (time_played : ℝ) : ℝ :=
  if time_played < 60 then min (time_played / 300) 0.2
  else 0.2 + min ((time_played - 60) / 180) 0.4

/-- Score factor of `StarWarsGame.get_difficulty_multiplier`
(lines 353-358), over `ℝ`. -/
noncomputable def score_factor (score : ℝ) : ℝ :=
  if score < 100 then score / 500
  else 0.2 + min ((score - 100) / 500) 0.2

/-- `StarWarsGame.get_difficulty_multiplier` (lines 337-376) as a function
of the elapsed play time `current_time - self.start_time` and the player's
score: combined factor capped at 1, early-game damping below 30 seconds,
then logarithmic compression `log(1 + 9x) / log 10` for positive values. -/
noncomputable def get_difficulty_multiplier (time_played score : ℝ) : ℝ :=
  let difficulty := min (time_factor time_played + score_factor score) 1
  let difficulty :=
    if time_played < 30 then difficulty * ((time_played / 30) * 0.7)
    else difficulty
  if 0 < difficulty then Real.log (1 + 9 * difficulty) / Real.log 10
  else difficulty

/-- Reading of the claimed floor invariant, written from the specification
for comparison with the embedded code (which truncates toward zero). -/
def floorInvariant (o : GameObject) : Prop :=
  o.x = ⌊o.float_x⌋ ∧ o.y = ⌊o.float_y⌋

/-- Reading of the level thresholds, written from the specification: score
99 gives level 0, `[100, 200)` level 1, `[200, 300)` level 2, 300 and above
level 3. -/
def levelOfScore (score : ℤ) : ℕ :=
  if score ≥ 300 then 3 else if score ≥ 200 then 2
  else if score ≥ 100 then 1 else 0

/-- Sample screen-sized state used by concrete witnesses. -/
def sampleState : GState :=
  { player := Player.init 5 12, enemies := [], power_ups := [],
    game_over := false, width := 80, height := 24,
    zigzag_enemy_score_threshold := 50, hunter_enemy_score_threshold := 120,
    next_eid := 0, rng := { ints := [], floats := [] } }

/-! Helper lemmas connecting the computable wrappers with the standard
operations, and basic facts about `pyInt`. -/

theorem qadd_eq (a b : ℚ) : qadd a b = a + b := (Rat.add_def' a b).symm

theorem qsub_eq (a b : ℚ) : qsub a b = a - b := (Rat.sub_def' a b).symm

theorem qmul_eq (a b : ℚ) : qmul a b = a * b := by
  rw [Rat.mul_def, Rat.normalize_eq_mkRat, qmul]

theorem qabs_eq (q : ℚ) : qabs q = |q| := by
  unfold qabs
  split
  · rw [abs_of_neg]; assumption
  · rw [abs_of_nonneg (le_of_not_lt (by assumption))]

theorem ratFloor_eq (q : ℚ) : q.floor = ⌊q⌋ := by
  rw [Rat.floor_def, Rat.floor_def']

theorem pyInt_eq (q : ℚ) : pyInt q = if q < 0 then -⌊-q⌋ else ⌊q⌋ := by
  rw [pyInt, ratFloor_eq, ratFloor_eq]

theorem pyInt_of_nonneg {q : ℚ} (h : 0 ≤ q) : pyInt q = ⌊q⌋ := by
  rw [pyInt_eq, if_neg (not_lt.mpr h)]

theorem GameObject.move_def (o : GameObject) (dx dy : ℚ) :
    o.move dx dy = { o with float_x := o.float_x + dx, float_y := o.float_y + dy,
                            x := pyInt (o.float_x + dx),
                            y := pyInt (o.float_y + dy) } := by
  simp only [GameObject.move, qadd_eq]

/-- Single zero-velocity move: the integer position becomes the truncation
of the (unchanged) sub-cell position. -/
theorem move_zero_fields (o : GameObject) :
    (o.move 0 0).x = pyInt o.float_x ∧ (o.move 0 0).y = pyInt o.float_y ∧
    (o.move 0 0).float_x = o.float_x ∧ (o.move 0 0).float_y = o.float_y := by
  simp [GameObject.move_def]

/-- Iterating zero-velocity moves preserves all four coordinates of an
object whose integer coordinates are the truncations of its sub-cell
coordinates. -/
theorem iterate_move_zero (o : GameObject) (hx : o.x = pyInt o.float_x)
    (hy : o.y = pyInt o.float_y) (n : ℕ) :
    ((fun q => GameObject.move q 0 0)^[n] o).x = o.x ∧
    ((fun q => GameObject.move q 0 0)^[n] o).y = o.y ∧
    ((fun q => GameObject.move q 0 0)^[n] o).float_x = o.float_x ∧
    ((fun q => GameObject.move q 0 0)^[n] o).float_y = o.float_y := by
  induction n with
  | zero => simp
  | succ n ih =>
    obtain ⟨ih1, ih2, ih3, ih4⟩ := ih
    rw [Function.iterate_succ_apply']
    obtain ⟨m1, m2, m3, m4⟩ :=
      move_zero_fields ((fun q => GameObject.move q 0 0)^[n] o)
    exact ⟨by rw [m1, ih3, ← hx], by rw [m2, ih4, ← hy],
           by rw [m3, ih3], by rw [m4, ih4]⟩

/-- C2 (counterexample): `GameObject.move` sets the integer coordinate with
Python `int()`, which truncates toward zero, not with the floor.  Moving an
object from sub-cell position `0` by `dx = -1/2` leaves the integer
coordinate at `0` while the floor of the sub-cell coordinate is `-1`. -/
theorem C2_counterexample :
    ((GameObject.init 0 0 "*" 1).move (mkRat (-1) 2) 0).x ≠
      ⌊((GameObject.init 0 0 "*" 1).move (mkRat (-1) 2) 0).float_x⌋ := by
  decide

/-- C2 (amended): after `move(entity, dx, dy)` the integer coordinate equals
the sub-cell coordinate truncated toward zero, which coincides with the
floor whenever the sub-cell coordinate is nonnegative; the player bounds
clamp of `handle_input` rewrites only integer coordinates and never the
sub-cell coordinates (so it preserves the floor relation only when it leaves
the integer coordinates unchanged). -/
theorem C2_move_truncates :
    (∀ (o : GameObject) (dx dy : ℚ),
      (o.move dx dy).x = pyInt (o.move dx dy).float_x ∧
      (o.move dx dy).y = pyInt (o.move dx dy).float_y) ∧
    (∀ (o : GameObject) (dx dy : ℚ),
      (0 ≤ (o.move dx dy).float_x →
        (o.move dx dy).x = ⌊(o.move dx dy).float_x⌋) ∧
      (0 ≤ (o.move dx dy).float_y →
        (o.move dx dy).y = ⌊(o.move dx dy).float_y⌋)) ∧
    (∀ (p : Player) (width height : ℕ),
      (clampPlayer p width height).obj.float_x = p.obj.float_x ∧
      (clampPlayer p width height).obj.float_y = p.obj.float_y) := by
  refine ⟨fun o dx dy => ⟨by simp [GameObject.move], by simp [GameObject.move]⟩,
    fun o dx dy => ⟨fun h => ?_, fun h => ?_⟩,
    fun p width height => ?_⟩
  · rw [(by simp [GameObject.move] : (o.move dx dy).x = pyInt (o.move dx dy).float_x),
      pyInt_of_nonneg h]
  · rw [(by simp [GameObject.move] : (o.move dx dy).y = pyInt (o.move dx dy).float_y),
      pyInt_of_nonneg h]
  · unfold clampPlayer
    dsimp only
    split_ifs <;> simp

/-- C2 (witness): concrete instance of the amended floor statement at a
nonnegative sub-cell position. -/
theorem C2_witness :
    (0 : ℚ) ≤ ((GameObject.init 1 2 "E" 1).move (mkRat 1 2) 0).float_x ∧
    ((GameObject.init 1 2 "E" 1).move (mkRat 1 2) 0).x =
      ⌊((GameObject.init 1 2 "E" 1).move (mkRat 1 2) 0).float_x⌋ :=
  ⟨by decide,
   (C2_move_truncates.2.1 (GameObject.init 1 2 "E" 1) (mkRat 1 2) 0).1 (by decide)⟩

set_option maxRecDepth 4000 in
/-- C8 (counterexample): starting from the game's initial player position
`x = 5`, six left-arrow inputs (each a `move(-1, 0)` followed by the bounds
clamp of `handle_input`) leave the player with integer coordinate `0` but
sub-cell coordinate `-1`; the next `move(e, 0, 0)` then changes the integer
coordinate, so zero-velocity moves are not idempotent for every entity. -/
theorem C8_counterexample :
    (let p := (fun pl => clampPlayer { pl with obj := pl.obj.move (-1) 0 } 80 24)^[6]
        (Player.init 5 12)
     (p.obj.move 0 0).x ≠ p.obj.x) := by
  decide

/-- C8 (amended): for every entity whose integer coordinates equal the
truncation toward zero of its sub-cell coordinates — which holds after
construction and after every `move`, but can be broken by the bounds clamp —
any number of repeated `move(e, 0, 0)` calls leaves the integer position
unchanged. -/
theorem C8_move_zero_idempotent (o : GameObject) (hx : o.x = pyInt o.float_x)
    (hy : o.y = pyInt o.float_y) (n : ℕ) :
    ((fun q => GameObject.move q 0 0)^[n] o).x = o.x ∧
    ((fun q => GameObject.move q 0 0)^[n] o).y = o.y :=
  ⟨(iterate_move_zero o hx hy n).1, (iterate_move_zero o hx hy n).2.1⟩

/-- C8 (witness): two zero-velocity moves on a freshly constructed object
leave its integer position unchanged. -/
theorem C8_witness :
    (GameObject.init 3 4 "E" 1).x = pyInt (GameObject.init 3 4 "E" 1).float_x ∧
    ((fun q => GameObject.move q 0 0)^[2] (GameObject.init 3 4 "E" 1)).x =
      (GameObject.init 3 4 "E" 1).x :=
  ⟨by decide,
   (C8_move_zero_idempotent (GameObject.init 3 4 "E" 1) (by decide) (by decide) 2).1⟩

/-- C5: `check_upgrade` never lowers the level; whenever the player's level
does not exceed the level its score warrants (the session invariant — it
holds initially and is preserved because the score never decreases), the
call lands exactly on the documented thresholds (99 is level 0, 100 level 1,
200 level 2, 300 level 3); and on any increase the glyph and width are
updated from the ship table and the timed upgrade banner is set. -/
theorem C5_level_thresholds :
    (levelOfScore 99 = 0 ∧ levelOfScore 100 = 1 ∧ levelOfScore 200 = 2 ∧
      levelOfScore 300 = 3) ∧
    (∀ (p : Player) (now : ℚ),
      p.level ≤ (p.check_upgrade now).1.level ∧
      (p.level ≤ levelOfScore p.score →
        (p.check_upgrade now).1.level = levelOfScore p.score) ∧
      (p.level < (p.check_upgrade now).1.level →
        (p.check_upgrade now).1.obj.char =
          SHIP_LEVELS (p.check_upgrade now).1.level ∧
        (p.check_upgrade now).1.obj.width =
          (SHIP_LEVELS (p.check_upgrade now).1.level).length ∧
        (p.check_upgrade now).1.upgrade_message =
          "SHIP UPGRADED! LEVEL " ++ toString ((p.check_upgrade now).1.level + 1) ∧
        (p.check_upgrade now).1.upgrade_time = now)) := by
  refine ⟨⟨by decide, by decide, by decide, by decide⟩, fun p now => ?_⟩
  unfold Player.check_upgrade levelOfScore
  dsimp only
  split_ifs <;> simp_all <;> omega

/-- C5 (witness): a level-0 player with 250 points upgrades exactly to
level 2. -/
theorem C5_witness :
    ({ Player.init 5 12 with score := 250 } : Player).level ≤ levelOfScore 250 ∧
    (({ Player.init 5 12 with score := 250 } : Player).check_upgrade 0).1.level =
      levelOfScore ({ Player.init 5 12 with score := 250 } : Player).score :=
  ⟨by decide,
   (C5_level_thresholds.2 { Player.init 5 12 with score := 250 } 0).2.1 (by decide)⟩

/-- C9: `shoot` is atomic with respect to its cooldown gate.  If `now`
minus the last-shot time is not strictly greater than the active cooldown
(`rapid_cooldown = 0.1` with rapid fire, `normal_cooldown = 0.3` otherwise,
as initialized), the call returns `False` and the player — in particular the
projectile list and the last-shot time — is completely unchanged.
Otherwise it returns `True`, appends the forward projectile plus an upper
and/or lower one when the level is at least 2 (each gated by screen-edge
proximity), one to three in total, and sets the last-shot time to `now`. -/
theorem C9_shoot_cooldown_gate (p : Player) (now : ℚ) (lines : ℕ) :
    (∀ x y : ℚ, (Player.init x y).rapid_cooldown = 1 / 10 ∧
      (Player.init x y).normal_cooldown = 3 / 10) ∧
    (¬ now - p.last_shot_time >
        (if p.rapid_fire then p.rapid_cooldown else p.normal_cooldown) →
      p.shoot now lines = (p, false)) ∧
    (now - p.last_shot_time >
        (if p.rapid_fire then p.rapid_cooldown else p.normal_cooldown) →
      (p.shoot now lines).2 = true ∧
      (p.shoot now lines).1.last_shot_time = now ∧
      (p.shoot now lines).1.projectiles =
        p.projectiles ++
          Projectile.init ((p.obj.x + (p.obj.width : ℤ) : ℤ) : ℚ)
              ((p.obj.y : ℤ) : ℚ) 1 p.rapid_fire p.next_pid ::
            ((if p.level ≥ 2 ∧ p.obj.y > 1 then
                [Projectile.init ((p.obj.x + (p.obj.width : ℤ) : ℤ) : ℚ)
                  ((p.obj.y - 1 : ℤ) : ℚ) 1 p.rapid_fire (p.next_pid + 1)]
              else []) ++
             (if p.level ≥ 2 ∧ p.obj.y < (lines : ℤ) - 2 then
                [Projectile.init ((p.obj.x + (p.obj.width : ℤ) : ℤ) : ℚ)
                  ((p.obj.y + 1 : ℤ) : ℚ) 1 p.rapid_fire
                  (p.next_pid + (if p.obj.y > 1 then 2 else 1))]
              else [])) ∧
      p.projectiles.length + 1 ≤ (p.shoot now lines).1.projectiles.length ∧
      (p.shoot now lines).1.projectiles.length ≤ p.projectiles.length + 3) := by
  refine ⟨fun x y => ⟨by norm_num [Player.init, Rat.mkRat_eq_div],
    by norm_num [Player.init, Rat.mkRat_eq_div]⟩, fun h => ?_, fun h => ?_⟩
  · unfold Player.shoot
    rw [qsub_eq, if_neg h]
  · unfold Player.shoot
    rw [qsub_eq, if_pos h]
    dsimp only
    split_ifs <;> simp_all [List.length_append]

/-- C9 (witness): a fresh level-0 player shooting at time 1 with a 24-line
screen fires exactly the forward projectile and records the shot time. -/
theorem C9_witness :
    ((1 : ℚ) - (Player.init 5 12).last_shot_time >
      (if (Player.init 5 12).rapid_fire then (Player.init 5 12).rapid_cooldown
       else (Player.init 5 12).normal_cooldown)) ∧
    ((Player.init 5 12).shoot 1 24).2 = true :=
  ⟨by rw [← qsub_eq]; decide,
   ((C9_shoot_cooldown_gate (Player.init 5 12) 1 24).2.2
      (by rw [← qsub_eq]; decide)).1⟩

/-- C6: each call to `spawn_enemy` adds exactly one enemy when fewer than 15
are live and none otherwise, and each call to `spawn_power_up` adds exactly
one power-up when fewer than 2 are live and none otherwise; hence, however
often they are called, the live counts never move past their caps. -/
theorem C6_spawn_caps :
    (∀ (s : GState) (difficulty : ℚ),
      (s.enemies.length < 15 →
        (spawn_enemy s difficulty).enemies.length = s.enemies.length + 1) ∧
      (¬ s.enemies.length < 15 →
        (spawn_enemy s difficulty).enemies = s.enemies) ∧
      (s.enemies.length ≤ 15 →
        (spawn_enemy s difficulty).enemies.length ≤ 15)) ∧
    (∀ s : GState,
      (s.power_ups.length < 2 →
        (spawn_power_up s).power_ups.length = s.power_ups.length + 1) ∧
      (¬ s.power_ups.length < 2 →
        (spawn_power_up s).power_ups = s.power_ups) ∧
      (s.power_ups.length ≤ 2 →
        (spawn_power_up s).power_ups.length ≤ 2)) := by
  constructor
  · intro s difficulty
    refine ⟨fun h => ?_, fun h => ?_, fun h => ?_⟩
    · unfold spawn_enemy
      rw [if_pos h]
      simp
    · unfold spawn_enemy
      rw [if_neg h]
    · by_cases hlt : s.enemies.length < 15
      · unfold spawn_enemy
        rw [if_pos hlt]
        simp only [List.length_append, List.length_cons, List.length_nil]
        omega
      · unfold spawn_enemy
        rw [if_neg hlt]
        exact h
  · intro s
    refine ⟨fun h => ?_, fun h => ?_, fun h => ?_⟩
    · unfold spawn_power_up
      rw [if_pos h]
      simp
    · unfold spawn_power_up
      rw [if_neg h]
    · by_cases hlt : s.power_ups.length < 2
      · unfold spawn_power_up
        rw [if_pos hlt]
        simp only [List.length_append, List.length_cons, List.length_nil]
        omega
      · unfold spawn_power_up
        rw [if_neg hlt]
        exact h

/-- C6 (witness): a state already holding 15 enemies is left unchanged by
`spawn_enemy`. -/
theorem C6_witness :
    ¬ ({ sampleState with
          enemies := List.replicate 15 (Enemy.init 70 5 EnemyType.BASIC 0 0)
        } : GState).enemies.length < 15 ∧
    (spawn_enemy
        { sampleState with
          enemies := List.replicate 15 (Enemy.init 70 5 EnemyType.BASIC 0 0) }
        0).enemies =
      ({ sampleState with
          enemies := List.replicate 15 (Enemy.init 70 5 EnemyType.BASIC 0 0)
        } : GState).enemies :=
  ⟨by decide,
   (C6_spawn_caps.1
      { sampleState with
        enemies := List.replicate 15 (Enemy.init 70 5 EnemyType.BASIC 0 0) }
      0).2.1 (by decide)⟩

/-! Helper lemmas about identity-based list surgery and the projectile
scan. -/

theorem length_setById (l : List Enemy) (i : ℕ) (e' : Enemy) :
    (setById l i e').length = l.length := by
  induction l with
  | nil => rfl
  | cons a as ih =>
    unfold setById
    split <;> simp [ih]

theorem map_eid_setById (l : List Enemy) (i : ℕ) (e' : Enemy)
    (h : e'.eid = i) : (setById l i e').map Enemy.eid = l.map Enemy.eid := by
  induction l with
  | nil => rfl
  | cons a as ih =>
    unfold setById
    split
    · rename_i ha
      simp [h, ha]
    · simp [ih]

theorem containsId_iff (l : List Enemy) (i : ℕ) :
    containsId l i = true ↔ i ∈ l.map Enemy.eid := by
  simp only [containsId, List.any_eq_true, beq_iff_eq, List.mem_map]

theorem containsId_setById (l : List Enemy) (i : ℕ) (e' : Enemy)
    (h : e'.eid = i) (j : ℕ) :
    containsId (setById l i e') j = containsId l j := by
  by_cases hj : containsId l j = true
  · have : containsId (setById l i e') j = true := by
      rw [containsId_iff, map_eid_setById l i e' h]
      exact (containsId_iff l j).mp hj
    rw [this, hj]
  · have : ¬ containsId (setById l i e') j = true := by
      rw [containsId_iff, map_eid_setById l i e' h]
      exact fun hc => hj ((containsId_iff l j).mpr hc)
    simp only [Bool.not_eq_true] at this hj
    rw [this, hj]

theorem length_eraseById (l : List Enemy) (i : ℕ)
    (h : containsId l i = true) : (eraseById l i).length + 1 = l.length := by
  induction l with
  | nil => simp [containsId] at h
  | cons a as ih =>
    unfold eraseById
    split
    · simp
    · rename_i ha
      have : containsId as i = true := by
        simp only [containsId, List.any_cons, Bool.or_eq_true, beq_iff_eq] at h ⊢
        rcases h with h | h
        · exact absurd h ha
        · exact h
      simp [ih this]

theorem containsId_eraseById_nodup (l : List Enemy) (i : ℕ)
    (h : (l.map Enemy.eid).Nodup) : containsId (eraseById l i) i = false := by
  induction l with
  | nil => rfl
  | cons a as ih =>
    unfold eraseById
    simp only [List.map_cons, List.nodup_cons] at h
    split
    · rename_i ha
      subst ha
      rw [← Bool.not_eq_true, containsId_iff]
      exact h.1
    · rename_i ha
      have h2 := ih h.2
      simp only [containsId, List.any_cons, Bool.or_eq_false_iff] at h2 ⊢
      exact ⟨by simpa using ha, h2⟩

theorem projGo_absent (s : GState) (e : Enemy) (ps : List Projectile)
    (h : containsId s.enemies e.eid = false) : projGo s e ps = s := by
  induction ps with
  | nil => rfl
  | cons pr rest ih =>
    unfold projGo
    split
    · rw [h]
      simpa using ih
    · exact ih

/-- Scanning the projectile snapshot: the first colliding projectile (after
any number of non-colliding ones) resolves the kill exactly as the source
writes it. -/
theorem projGo_first_hit (s : GState) (e : Enemy) (ps₁ ps₂ : List Projectile)
    (pr : Projectile)
    (hmiss : ∀ q ∈ ps₁, e.obj.collides_with q.obj 0 = false)
    (hhit : e.obj.collides_with pr.obj 0 = true)
    (hin : containsId s.enemies e.eid = true) :
    projGo s e (ps₁ ++ pr :: ps₂) =
      { s with enemies := eraseById s.enemies e.eid,
               player := { s.player with
                 projectiles := s.player.projectiles.erase pr,
                 score := s.player.score +
                   (EnemyType.get_points e.enemy_type : ℤ) } } := by
  induction ps₁ with
  | nil =>
    simp only [List.nil_append]
    unfold projGo
    rw [hhit, hin]
    simp
  | cons q qs ih =>
    simp only [List.cons_append]
    unfold projGo
    rw [hmiss q (List.mem_cons_self q qs)]
    simp only [Bool.false_eq_true, if_false]
    exact ih (fun x hx => hmiss x (List.mem_cons_of_mem q hx))

/-- C4: an enemy that is still live when the projectile loop reaches it and
that collides (margin 0) with at least one player projectile is resolved
against the first matching projectile of the snapshot: exactly that enemy
and exactly that projectile are removed, the score increases by exactly the
enemy-type point value (Basic 10, Zigzag 15, Hunter 20), and the
projectiles after the first match are not scanned (they survive
untouched in the list). -/
theorem C4_projectile_kill (s : GState) (e : Enemy) (ps₁ ps₂ : List Projectile)
    (pr : Projectile)
    (hsnap : s.player.projectiles = ps₁ ++ pr :: ps₂)
    (hmiss : ∀ q ∈ ps₁, e.obj.collides_with q.obj 0 = false)
    (hhit : e.obj.collides_with pr.obj 0 = true)
    (hin : containsId s.enemies e.eid = true) :
    projScan s e =
      { s with enemies := eraseById s.enemies e.eid,
               player := { s.player with
                 projectiles := s.player.projectiles.erase pr,
                 score := s.player.score +
                   (EnemyType.get_points e.enemy_type : ℤ) } } ∧
    (projScan s e).enemies.length + 1 = s.enemies.length ∧
    (projScan s e).player.projectiles.length + 1 =
      s.player.projectiles.length ∧
    (projScan s e).player.score =
      s.player.score + (EnemyType.get_points e.enemy_type : ℤ) ∧
    (EnemyType.get_points EnemyType.BASIC = 10 ∧
     EnemyType.get_points EnemyType.ZIGZAG = 15 ∧
     EnemyType.get_points EnemyType.HUNTER = 20) := by
  have hmain : projScan s e =
      { s with enemies := eraseById s.enemies e.eid,
               player := { s.player with
                 projectiles := s.player.projectiles.erase pr,
                 score := s.player.score +
                   (EnemyType.get_points e.enemy_type : ℤ) } } := by
    unfold projScan
    conv_lhs => rw [hsnap]
    exact projGo_first_hit s e ps₁ ps₂ pr hmiss hhit hin
  have hprmem : pr ∈ s.player.projectiles := by
    rw [hsnap]
    exact List.mem_append_right ps₁ (List.mem_cons_self pr ps₂)
  refine ⟨hmain, ?_, ?_, ?_, rfl, rfl, rfl⟩
  · rw [hmain]
    exact length_eraseById s.enemies e.eid hin
  · rw [hmain]
    exact List.length_erase_add_one hprmem
  · rw [hmain]

/-- C3: when the enemy pass reaches an enemy that (after moving, still
on-screen) collides with the player while the player has neither
invincibility nor an active shield, `update` sets the game-over flag and
returns at once: the remaining snapshot is not processed (the whole pass
result is the state at the collision), the player — score, shield state and
projectile list — is untouched, the power-ups are untouched, and the
colliding enemy itself is not destroyed even if a projectile also overlaps
it this tick (the live enemy list keeps exactly the same identities, the
collider merely holding its moved value). -/
theorem C3_lethal_collision_aborts_pass (now : ℚ) (s : GState) (e : Enemy)
    (rest : List Enemy) (e' : Enemy) (r' : Rng)
    (hupd : e.update s.player.obj.get_position s.rng = (e', r'))
    (heid : e'.eid = e.eid)
    (hinv : s.player.invincible = false)
    (hsh : s.player.has_shield = false)
    (hon : ¬ (e'.obj.x + (e'.obj.width : ℤ) < 0 ∨ e'.obj.x > (s.width : ℤ) ∨
        e'.obj.y < 0 ∨ e'.obj.y > (s.height : ℤ)))
    (hcol : e'.obj.collides_with s.player.obj 0 = true) :
    enemyGo now s (e :: rest) =
      { s with enemies := setById s.enemies e.eid e', rng := r',
               game_over := true } ∧
    (enemyGo now s (e :: rest)).game_over = true ∧
    (enemyGo now s (e :: rest)).player = s.player ∧
    (enemyGo now s (e :: rest)).power_ups = s.power_ups ∧
    containsId (enemyGo now s (e :: rest)).enemies e.eid =
      containsId s.enemies e.eid := by
  have hstep : enemyStep now s e = Sum.inr
      { s with enemies := setById s.enemies e.eid e', rng := r',
               game_over := true } := by
    simp only [enemyStep, hupd]
    rw [if_neg hon]
    simp [hcol, hinv, hsh]
  have hgo : enemyGo now s (e :: rest) =
      { s with enemies := setById s.enemies e.eid e', rng := r',
               game_over := true } := by
    unfold enemyGo
    rw [hstep]
  refine ⟨hgo, by rw [hgo], by rw [hgo], by rw [hgo], ?_⟩
  rw [hgo]
  exact containsId_setById s.enemies e.eid e' heid e.eid

/-- C7: when the enemy pass reaches an enemy that (after moving, still
on-screen) collides with the player while the player is not invincible but
holds an active shield, the collision consumes the shield, sets the
feedback banner, removes exactly that enemy from the live list, leaves the
score and the projectile list unchanged, does not touch the game-over flag,
and continues with the rest of the pass (the step result is `Sum.inl`). -/
theorem C7_shield_absorbs_collision (now : ℚ) (s : GState) (e : Enemy)
    (e' : Enemy) (r' : Rng)
    (hupd : e.update s.player.obj.get_position s.rng = (e', r'))
    (heid : e'.eid = e.eid)
    (hnd : (s.enemies.map Enemy.eid).Nodup)
    (hinv : s.player.invincible = false)
    (hsh : s.player.has_shield = true)
    (hon : ¬ (e'.obj.x + (e'.obj.width : ℤ) < 0 ∨ e'.obj.x > (s.width : ℤ) ∨
        e'.obj.y < 0 ∨ e'.obj.y > (s.height : ℤ)))
    (hcol : e'.obj.collides_with s.player.obj 0 = true) :
    ∃ s', enemyStep now s e = Sum.inl s' ∧
      s'.player.has_shield = false ∧
      s'.player.upgrade_message = "SHIELD DEACTIVATED!" ∧
      s'.player.upgrade_time = now ∧
      s'.player.score = s.player.score ∧
      s'.player.projectiles = s.player.projectiles ∧
      s'.game_over = s.game_over ∧
      s'.power_ups = s.power_ups ∧
      containsId s'.enemies e.eid = false ∧
      s'.enemies = eraseById (setById s.enemies e.eid e') e.eid := by
  have habsent : containsId
      (eraseById (setById s.enemies e.eid e') e.eid) e'.eid = false := by
    rw [heid]
    apply containsId_eraseById_nodup
    rw [map_eid_setById s.enemies e.eid e' heid]
    exact hnd
  have hstep : enemyStep now s e = Sum.inl
      { s with
        player :=
          { s.player with
            has_shield := false
            upgrade_message := "SHIELD DEACTIVATED!"
            upgrade_time := now },
        enemies := eraseById (setById s.enemies e.eid e') e.eid,
        rng := r' } := by
    simp only [enemyStep, hupd]
    rw [if_neg hon]
    simp only [hcol, hinv, hsh, Bool.false_eq_true, if_false, if_true]
    unfold projScan
    rw [projGo_absent _ _ _ habsent]
  refine ⟨_, hstep, rfl, rfl, rfl, rfl, rfl, rfl, rfl, ?_, rfl⟩
  rw [heid] at habsent
  exact habsent

/-- C3 (witness): a basic enemy at (10, 12) moves to x = 9 and touches the
unprotected player at (5, 12); the pass ends immediately with game over and
an untouched player. -/
theorem C3_witness :
    (let E := Enemy.init 10 12 EnemyType.BASIC 0 0
     let s : GState := { sampleState with enemies := [E] }
     (enemyGo 0 s [E]).game_over = true ∧
     (enemyGo 0 s [E]).player = s.player) :=
  ⟨(C3_lethal_collision_aborts_pass 0
      { sampleState with enemies := [Enemy.init 10 12 EnemyType.BASIC 0 0] }
      (Enemy.init 10 12 EnemyType.BASIC 0 0) [] _ _ rfl (by decide)
      (by decide) (by decide) (by decide) (by decide)).2.1,
   (C3_lethal_collision_aborts_pass 0
      { sampleState with enemies := [Enemy.init 10 12 EnemyType.BASIC 0 0] }
      (Enemy.init 10 12 EnemyType.BASIC 0 0) [] _ _ rfl (by decide)
      (by decide) (by decide) (by decide) (by decide)).2.2.1⟩

/-- C4 (witness): a basic enemy overlapping the player's only projectile is
destroyed for exactly its 10 points. -/
theorem C4_witness :
    (let E := Enemy.init 10 12 EnemyType.BASIC 0 0
     let P := Projectile.init 9 12 1 false 0
     let s : GState := { sampleState with
                         enemies := [E],
                         player := { sampleState.player with
                                     projectiles := [P] } }
     E.obj.collides_with P.obj 0 = true ∧
     (projScan s E).player.score =
       s.player.score + (EnemyType.get_points E.enemy_type : ℤ)) :=
  ⟨by decide,
   (C4_projectile_kill
      { sampleState with
        enemies := [Enemy.init 10 12 EnemyType.BASIC 0 0],
        player := { sampleState.player with
                    projectiles := [Projectile.init 9 12 1 false 0] } }
      (Enemy.init 10 12 EnemyType.BASIC 0 0) [] []
      (Projectile.init 9 12 1 false 0) rfl (by simp) (by decide)
      (by decide)).2.2.2.1⟩

/-- C7 (witness): the same lethal contact with an active shield instead
consumes the shield and the game continues. -/
theorem C7_witness :
    (let E := Enemy.init 10 12 EnemyType.BASIC 0 0
     let s : GState := { sampleState with
                         player := { Player.init 5 12 with has_shield := true },
                         enemies := [E] }
     ∃ s', enemyStep 0 s E = Sum.inl s' ∧
       s'.player.has_shield = false ∧ s'.game_over = s.game_over) := by
  obtain ⟨s', h1, h2, _, _, _, _, h7, _⟩ :=
    C7_shield_absorbs_collision 0
      { sampleState with
        player := { Player.init 5 12 with has_shield := true },
        enemies := [Enemy.init 10 12 EnemyType.BASIC 0 0] }
      (Enemy.init 10 12 EnemyType.BASIC 0 0) _ _ rfl (by decide) (by decide)
      (by decide) (by decide) (by decide) (by decide)
  exact ⟨s', h1, h2, h7⟩

/-- Score change of one projectile scan: unchanged, or increased by exactly
the enemy's point value. -/
theorem projGo_score (s : GState) (e : Enemy) (ps : List Projectile) :
    (projGo s e ps).player.score = s.player.score ∨
    (projGo s e ps).player.score =
      s.player.score + (EnemyType.get_points e.enemy_type : ℤ) := by
  induction ps with
  | nil => exact Or.inl rfl
  | cons pr rest ih =>
    unfold projGo
    split
    · split
      · exact Or.inr rfl
      · exact ih
    · exact ih

/-- The projectile scan never decreases the score. -/
theorem projGo_score_le (s : GState) (e : Enemy) (ps : List Projectile) :
    s.player.score ≤ (projGo s e ps).player.score := by
  rcases projGo_score s e ps with h | h
  · rw [h]
  · rw [h]
    exact le_add_of_nonneg_right (by positivity)

/-- One enemy-loop body never decreases the score, whichever way it
exits. -/
theorem enemyStep_score_le (now : ℚ) (s : GState) (e : Enemy) (s' : GState)
    (h : enemyStep now s e = Sum.inl s' ∨ enemyStep now s e = Sum.inr s') :
    s.player.score ≤ s'.player.score := by
  unfold enemyStep at h
  dsimp only at h
  rcases h with h | h <;> split_ifs at h <;>
    first
      | (rw [Sum.inr.injEq] at h; subst h; exact le_refl _)
      | (rw [Sum.inl.injEq] at h; subst h;
         first
           | exact le_refl _
           | exact projGo_score_le _ _ _)

/-- The enemy pass never decreases the score. -/
theorem enemyGo_score_le (now : ℚ) (l : List Enemy) (s : GState) :
    s.player.score ≤ (enemyGo now s l).player.score := by
  induction l generalizing s with
  | nil => exact le_refl _
  | cons e rest ih =>
    unfold enemyGo
    rcases hstep : enemyStep now s e with s' | s'
    · exact le_trans (enemyStep_score_le now s e s' (Or.inl hstep)) (ih s')
    · exact enemyStep_score_le now s e s' (Or.inr hstep)

/-- The power-up pass never decreases the score. -/
theorem powerUpGo_score_le (now : ℚ) (l : List PowerUp) (s : GState) :
    s.player.score ≤ (powerUpGo now s l).player.score := by
  induction l generalizing s with
  | nil => exact le_refl _
  | cons pu rest ih =>
    unfold powerUpGo
    dsimp only
    split_ifs
    · exact ih _
    · exact le_trans (le_add_of_nonneg_right (by norm_num)) (ih _)
    · exact le_trans (le_add_of_nonneg_right (by norm_num)) (ih _)
    · exact le_trans (le_add_of_nonneg_right (by norm_num)) (ih _)
    · exact le_trans (le_add_of_nonneg_right (by norm_num)) (ih _)
    · exact ih _

/-- Processing a single power-up leaves the score unchanged or adds exactly
the flat +5 pickup bonus. -/
theorem powerUpStep_score (now : ℚ) (s : GState) (pu : PowerUp) :
    (powerUpGo now s [pu]).player.score = s.player.score ∨
    (powerUpGo now s [pu]).player.score = s.player.score + 5 := by
  unfold powerUpGo
  dsimp only
  split_ifs <;>
    first
      | exact Or.inl rfl
      | exact Or.inr rfl

/-- C10: the score starts at 0; the two collision passes (the only places
that write the score) never decrease it — a power-up step adds exactly 0 or
the flat +5 pickup bonus, a projectile scan adds exactly 0 or the enemy's
point value — every other player/session operation (shooting, the upgrade
check, power-up expiry, projectile culling, the input clamp, both spawners)
leaves it unchanged, and it stays non-negative. -/
theorem C10_score_monotone :
    (∀ (now : ℚ) (s : GState) (l : List PowerUp), 0 ≤ s.player.score →
      0 ≤ (powerUpGo now s l).player.score) ∧
    (∀ (now : ℚ) (s : GState) (l : List Enemy), 0 ≤ s.player.score →
      0 ≤ (enemyGo now s l).player.score) ∧
    (∀ x y : ℚ, (Player.init x y).score = 0) ∧
    (∀ (p : Player) (now : ℚ) (lines : ℕ),
      (p.shoot now lines).1.score = p.score) ∧
    (∀ (p : Player) (now : ℚ), (p.check_upgrade now).1.score = p.score) ∧
    (∀ (p : Player) (now : ℚ), (p.update_power_ups now).score = p.score) ∧
    (∀ (p : Player) (mx : ℕ), (p.update_projectiles mx).score = p.score) ∧
    (∀ (p : Player) (w h : ℕ), (clampPlayer p w h).score = p.score) ∧
    (∀ (s : GState) (d : ℚ), (spawn_enemy s d).player.score = s.player.score) ∧
    (∀ s : GState, (spawn_power_up s).player.score = s.player.score) ∧
    (∀ (now : ℚ) (s : GState) (pu : PowerUp),
      (powerUpGo now s [pu]).player.score = s.player.score ∨
      (powerUpGo now s [pu]).player.score = s.player.score + 5) ∧
    (∀ (s : GState) (e : Enemy) (ps : List Projectile),
      (projGo s e ps).player.score = s.player.score ∨
      (projGo s e ps).player.score =
        s.player.score + (EnemyType.get_points e.enemy_type : ℤ)) ∧
    (∀ (now : ℚ) (s : GState) (l : List PowerUp),
      s.player.score ≤ (powerUpGo now s l).player.score) ∧
    (∀ (now : ℚ) (s : GState) (l : List Enemy),
      s.player.score ≤ (enemyGo now s l).player.score) := by
  refine ⟨fun now s l h => le_trans h (powerUpGo_score_le now l s),
    fun now s l h => le_trans h (enemyGo_score_le now l s),
    fun x y => rfl,
    fun p now lines => ?_,
    fun p now => ?_,
    fun p now => ?_,
    fun p mx => rfl,
    fun p w h => ?_,
    fun s d => ?_,
    fun s => ?_,
    powerUpStep_score,
    projGo_score,
    fun now s l => powerUpGo_score_le now l s,
    fun now s l => enemyGo_score_le now l s⟩
  · unfold Player.shoot
    dsimp only
    split_ifs <;> rfl
  · unfold Player.check_upgrade
    dsimp only
    split_ifs <;> rfl
  · unfold Player.update_power_ups
    dsimp only
    split_ifs <;> rfl
  · unfold clampPlayer
    dsimp only
    split_ifs <;> rfl
  · unfold spawn_enemy
    dsimp only
    split_ifs <;> rfl
  · unfold spawn_power_up
    dsimp only
    split_ifs <;> rfl

/-- C10 (witness): the initial session score is 0 and an empty power-up pass
keeps it non-negative. -/
theorem C10_witness :
    (0 : ℤ) ≤ sampleState.player.score ∧
    0 ≤ (powerUpGo 0 sampleState []).player.score :=
  ⟨le_refl 0, C10_score_monotone.1 0 sampleState [] (le_refl 0)⟩

/-- The time factor is nonnegative for nonnegative elapsed time. -/
theorem time_factor_nonneg {t : ℝ} (h : 0 ≤ t) : 0 ≤ time_factor t := by
  unfold time_factor
  split_ifs with h60
  · exact le_min (by positivity) (by norm_num)
  · have h1 : (0 : ℝ) ≤ (t - 60) / 180 := by
      have := not_lt.mp h60
      apply div_nonneg (by linarith) (by norm_num)
    have h2 : (0 : ℝ) ≤ min ((t - 60) / 180) 0.4 := le_min h1 (by norm_num)
    linarith

/-- The score factor is nonnegative for nonnegative score. -/
theorem score_factor_nonneg {s : ℝ} (h : 0 ≤ s) : 0 ≤ score_factor s := by
  unfold score_factor
  split_ifs with h100
  · positivity
  · have h1 : (0 : ℝ) ≤ (s - 100) / 500 := by
      have := not_lt.mp h100
      apply div_nonneg (by linarith) (by norm_num)
    have h2 : (0 : ℝ) ≤ min ((s - 100) / 500) 0.2 := le_min h1 (by norm_num)
    linarith

/-- C1: for every elapsed time and score at least 0 the difficulty
multiplier — time and score contributions summed and capped at 1, damped by
`(elapsed/30) * 0.7` before 30 seconds, then compressed by
`log(1 + 9x) / log 10` when positive — lies in the closed interval [0, 1],
and at elapsed time 0 with score 0 it is exactly 0. -/
theorem C1_difficulty_bounds :
    (∀ time_played score : ℝ, 0 ≤ time_played → 0 ≤ score →
      0 ≤ get_difficulty_multiplier time_played score ∧
      get_difficulty_multiplier time_played score ≤ 1) ∧
    get_difficulty_multiplier 0 0 = 0 := by
  constructor
  · intro t s ht hs
    unfold get_difficulty_multiplier
    dsimp only
    set d0 := min (time_factor t + score_factor s) 1 with hd0
    have hd0_nonneg : 0 ≤ d0 :=
      le_min (add_nonneg (time_factor_nonneg ht) (score_factor_nonneg hs))
        zero_le_one
    have hd0_le : d0 ≤ 1 := min_le_right _ _
    set d1 := if t < 30 then d0 * ((t / 30) * 0.7) else d0 with hd1
    have hd1_nonneg : 0 ≤ d1 := by
      rw [hd1]
      split_ifs with h30
      · exact mul_nonneg hd0_nonneg (mul_nonneg (by positivity) (by norm_num))
      · exact hd0_nonneg
    have hd1_le : d1 ≤ 1 := by
      rw [hd1]
      split_ifs with h30
      · have hb1 : (t / 30) * 0.7 ≤ 1 := by
          have ht30 : t / 30 ≤ 1 := by
            rw [div_le_one (by norm_num)]
            linarith
          nlinarith
        exact mul_le_one₀ hd0_le
          (mul_nonneg (by positivity) (by norm_num)) hb1
      · exact hd0_le
    split_ifs with hpos
    · constructor
      · exact div_nonneg (Real.log_nonneg (by linarith))
          (Real.log_nonneg (by norm_num))
      · rw [div_le_one (Real.log_pos (by norm_num))]
        exact (Real.log_le_log_iff (by linarith) (by norm_num)).mpr
          (by linarith)
    · exact ⟨hd1_nonneg, hd1_le⟩
  · unfold get_difficulty_multiplier time_factor score_factor
    norm_num

/-- C1 (witness): the bounds hold at the concrete input (0, 0). -/
theorem C1_witness :
    0 ≤ get_difficulty_multiplier 0 0 ∧ get_difficulty_multiplier 0 0 ≤ 1 :=
  C1_difficulty_bounds.1 0 0 le_rfl le_rfl
